import Mathlib

/-!
Verification of the hooplab/pdf-renderer core against its specification.

The development shallowly embeds the pieces of the repository that the
checked properties are about:

- the browser health tracker and pool factory callbacks of
  src/src/lib/pdf.ts and src/src/server.ts (createPuppeteerPool),
- the render pipeline of src/src/lib/pdf.ts (render),
- the renderer facade of the revision embedded in src/src/server.ts
  (createRenderer, timeout, isHealthy),
- the request translator of src/src/domain/pdf/request.ts.

JavaScript values are modelled with Option and explicit truthiness helpers;
async code is modelled by explicit outcome parameters describing what the
external browser returns, and by traces of the pool and page operations
the code performs.

The pool itself lives in the generic-pool dependency, which is not part of
the repository sources; the parts of its behaviour that the properties
need (borrow-time validation, replenishment toward min, the waiting-client
priority queue) are modelled separately and marked as such below.
-/

namespace PdfRenderer

/-- JavaScript truthiness of an optional string value: an absent value and
the empty string are falsy, every other string is truthy. -/
def jsTruthyStr : Option String → Bool
  | none => false
  | some s => s != ""

/-- Priority constant from the sources: `const LOW_PRIORITY = 0`. -/
def LOW_PRIORITY : Int := 0

/-- Priority constant from the sources: `const HIGH_PRIORITY = 1`. -/
def HIGH_PRIORITY : Int := 1

/-! ### Health tracker

`createPuppeteerPool` keeps `const shouldRepair: { [key: number]: boolean } = {}`,
a mutable map from browser process id to a repair flag.  The factory
callbacks and the disconnect listener read and write it. -/

/-- The `shouldRepair` map: process id to optional flag (a missing entry is
`none`, i.e. `undefined` in JavaScript). -/
def HealthMap : Type := Nat → Option Bool

/-- Write an entry of the `shouldRepair` map (`shouldRepair[pid] = v`). -/
def hmSet (m : HealthMap) (pid : Nat) (v : Bool) : HealthMap :=
  fun p => if p = pid then some v else m p

/-- Remove an entry of the `shouldRepair` map (`delete shouldRepair[pid]`). -/
def hmDelete (m : HealthMap) (pid : Nat) : HealthMap :=
  fun p => if p = pid then none else m p

/-- `factory.validate(browser)` from `createPuppeteerPool`: it looks up
`shouldRepair[pid]` and returns false when the flag is set, true otherwise
(including when the entry is absent, since `undefined` is falsy). -/
def factoryValidate (m : HealthMap) (pid : Nat) : Bool :=
  match m pid with
  | some true => false
  | _ => true

/-- The events that mutate the `shouldRepair` map:
`create` is `factory.create` finishing (`shouldRepair[pid] = false`),
`disconnected` is the `browser.once("disconnected", ...)` listener firing
(`shouldRepair[pid] = true`), and `destroy` is `factory.destroy`
(`delete shouldRepair[pid]`). -/
inductive PoolEvent
  | create (pid : Nat)
  | disconnected (pid : Nat)
  | destroy (pid : Nat)
  deriving DecidableEq

/-- Effect of one pool event on the `shouldRepair` map, following the three
write sites in `createPuppeteerPool`. -/
def applyEvent (m : HealthMap) : PoolEvent → HealthMap
  | .create pid => hmSet m pid false
  | .disconnected pid => hmSet m pid true
  | .destroy pid => hmDelete m pid

/-- Effect of a sequence of pool events on the `shouldRepair` map. -/
def applyEvents (m : HealthMap) (evs : List PoolEvent) : HealthMap :=
  evs.foldl applyEvent m

/-! ### Pool borrow model

The pool object returned by `genericPool.createPool` is configured in the
sources with `testOnBorrow: true` and the factory above.  The dispense loop
itself is part of the generic-pool dependency, not of the repository. -/

/-- State of the pool: the `shouldRepair` map, the idle instances in
dispense order, the borrowed instances, the configured `min`, and the next
fresh process id. -/
structure PoolState where
  health : HealthMap
  idle : List Nat
  borrowed : List Nat
  minSize : Nat
  nextPid : Nat

/-- Number of instances currently owned by the pool. -/
def poolSize (s : PoolState) : Nat :=
  s.idle.length + s.borrowed.length

/-- Modelled from the spec: the borrow-time test loop of the generic-pool
dependency (configured with `testOnBorrow: true` in the sources, which is
not itself part of src).  Idle instances are dispensed in order; each one
is checked with `factory.validate`, and an instance that fails validation
is destroyed (its `shouldRepair` entry deleted, as `factory.destroy` does)
and the next one is tried. -/
def dispense : HealthMap → List Nat → Option Nat × HealthMap × List Nat
  | h, [] => (none, h, [])
  | h, pid :: rest =>
    if factoryValidate h pid then (some pid, h, rest)
    else dispense (hmDelete h pid) rest

/-- Fresh process ids handed to newly created instances. -/
def freshPids (start n : Nat) : List Nat :=
  (List.range n).map (start + ·)

/-- Register newly created instances in the `shouldRepair` map, as
`factory.create` does (`shouldRepair[pid] = false`). -/
def addFresh (h : HealthMap) (pids : List Nat) : HealthMap :=
  pids.foldl (fun m p => hmSet m p false) h

/-- Modelled from the spec: replenishment of the pool toward `min` after
destroys, performed by the generic-pool dependency (not part of src). -/
def replenish (s : PoolState) : PoolState :=
  let need := s.minSize - poolSize s
  { s with
      idle := s.idle ++ freshPids s.nextPid need
      health := addFresh s.health (freshPids s.nextPid need)
      nextPid := s.nextPid + need }

/-- Modelled from the spec: one `acquire` against the pool, combining the
dispense loop, creation of a fresh instance when no idle instance passes
validation, and replenishment toward `min`.  The generic-pool dependency
implementing this is not part of src; the factory callbacks it invokes are
the ones translated above. -/
def poolAcquire (s : PoolState) : Option Nat × PoolState :=
  match dispense s.health s.idle with
  | (some pid, h, idle2) =>
      (some pid,
        replenish { s with health := h, idle := idle2, borrowed := s.borrowed ++ [pid] })
  | (none, h, idle2) =>
      (some s.nextPid,
        replenish
          { health := hmSet h s.nextPid false
            idle := idle2
            borrowed := s.borrowed ++ [s.nextPid]
            minSize := s.minSize
            nextPid := s.nextPid + 1 })

/-! ### Waiting-client priority queue

Model of the PriorityQueue of the generic-pool dependency, which holds the
waiting acquire calls when the pool is saturated.  It keeps one FIFO slot
per priority level; `priorityRange` defaults to 1 when the pool options do
not set it, and neither revision of `createPuppeteerPool` sets it.
Enqueueing clamps an out-of-range priority to the last slot; dequeueing
scans the slots from index 0 upward, so slot 0 is served first. -/

/-- The waiting-client queue: one FIFO list per priority slot. -/
structure PriorityQueue where
  slots : List (List Nat)
  deriving DecidableEq

/-- A fresh queue with `max priorityRange 1` empty slots. -/
def mkPQ (priorityRange : Nat) : PriorityQueue :=
  ⟨List.replicate (max priorityRange 1) []⟩

/-- Slot selection on enqueue: priority 0 (or an absent priority) goes to
slot 0; a nonzero priority outside `[0, slots)` is clamped to the last
slot; otherwise the priority indexes its slot directly. -/
def clampPriority (len : Nat) (p : Int) : Nat :=
  if p = 0 then 0
  else if p < 0 ∨ (len : Int) ≤ p then len - 1
  else p.toNat

/-- Enqueue a waiter at the given priority. -/
def pqEnqueue (q : PriorityQueue) (x : Nat) (p : Int) : PriorityQueue :=
  let i := clampPriority q.slots.length p
  ⟨q.slots.set i (q.slots.getD i [] ++ [x])⟩

/-- Dequeue scan: take the head of the first nonempty slot. -/
def pqDequeueGo : List (List Nat) → Option Nat × List (List Nat)
  | [] => (none, [])
  | (x :: xs) :: rest => (some x, xs :: rest)
  | [] :: rest =>
      let (r, rest2) := pqDequeueGo rest
      (r, [] :: rest2)

/-- Dequeue the next waiter to be served when an instance frees up. -/
def pqDequeue (q : PriorityQueue) : Option Nat × PriorityQueue :=
  let (r, sl) := pqDequeueGo q.slots
  (r, ⟨sl⟩)

/-! ### Render options (src/src/lib/pdf.ts)

The `RenderOptions` union of the latest revision, together with the pdf
option record the render pipeline manipulates.  Optional JavaScript fields
are `Option`; the repository only ever stores strings in the pdf width and
height fields, so they are modelled as optional strings. -/

/-- The `margin` record of `puppeteer.PDFOptions` as produced by the
request translator. -/
structure Margins where
  top : Option String := none
  right : Option String := none
  bottom : Option String := none
  left : Option String := none
  deriving DecidableEq

/-- The fields of `puppeteer.PDFOptions` that the repository reads or
writes. -/
structure PdfOpts where
  format : Option String := none
  width : Option String := none
  height : Option String := none
  displayHeaderFooter : Bool := false
  headerTemplate : Option String := none
  footerTemplate : Option String := none
  margin : Option Margins := none
  deriving DecidableEq

/-- The `waitUntil` navigation value: `LoadEvent | LoadEvent[]` in the
sources. -/
inductive WaitUntil
  | one (e : String)
  | many (es : List String)
  deriving DecidableEq

/-- The tagged source union of `RenderOptions`: `type: "url"` with a url,
or `type: "html"` with literal markup. -/
inductive Source
  | url (u : String)
  | html (content : String)
  deriving DecidableEq

/-- `RenderOptions` of src/src/lib/pdf.ts.  The nested
`WaitForSelectorOptions` sub-records are never populated by the repository
(the translator only fills the selector and xpath strings), so the wait
fields carry just those strings. -/
structure RenderOptions where
  src : Source
  pdf : PdfOpts
  waitForSelector : Option String := none
  waitForXpath : Option String := none
  navigation : Option WaitUntil := none
  mediaType : Option String := none
  defaultNavigationTimeout : Nat := 60000
  defaultTimeout : Nat := 60000
  deriving DecidableEq

/-- The size-defaulting block of `render`:
`if (!options.pdf.format && (!options.pdf.width || !options.pdf.height))`
then `options.pdf.width = options.pdf.width ?? "8.27in"` and
`options.pdf.height = options.pdf.height ?? ` the document offsetHeight
plus 2 with a ` px` suffix.  Truthiness and nullish coalescing are modelled
separately: an empty string is falsy but not nullish. -/
def applyPdfDefaults (pdf : PdfOpts) (offsetHeight : Int) : PdfOpts :=
  if !jsTruthyStr pdf.format && (!jsTruthyStr pdf.width || !jsTruthyStr pdf.height) then
    { pdf with
        width := some (pdf.width.getD "8.27in")
        height := some (pdf.height.getD (toString (offsetHeight + 2) ++ " px")) }
  else pdf

/-! ### Render pipeline (src/src/lib/pdf.ts, `render`)

The pipeline is a sequence of awaited browser calls.  What the external
browser would answer is collected in a `PageEnv`; the pipeline returns the
result of the `render` function together with the trace of the steps it
performed, in order. -/

/-- The navigation response `page.goto` resolves with, when any.  `text`
is the body `response.text()` would produce (`none` models `text()`
throwing, which the code swallows into an empty string). -/
structure NavResponse where
  status : Nat
  text : Option String := none
  deriving DecidableEq

/-- `response.ok()`: the status is in the 2xx range. -/
def NavResponse.ok (r : NavResponse) : Bool :=
  200 ≤ r.status && r.status ≤ 299

/-- Behaviour of the external browser during one render: the navigation
response (for url jobs), the document offsetHeight read by the defaulting
block, whether the selector and xpath waits succeed, and what `page.pdf`
returns (`none` models a null or undefined pdf). -/
structure PageEnv where
  gotoResponse : Option NavResponse := none
  offsetHeight : Int := 0
  selectorFound : Bool := true
  xpathFound : Bool := true
  pdfResult : Option (List Nat) := none
  deriving DecidableEq

/-- The classified failures thrown by `render` (each constructor is one
`throw new Error(...)` site, keeping the data interpolated into the
message). -/
inductive RenderError
  | navigationNotOk (status : Nat) (body : String)
  | navigationNullResponse
  | selectorTimeout (selector : String)
  | xpathTimeout (xpath : String)
  | pdfNull
  deriving DecidableEq

/-- The abstract pipeline steps of the specification state machine. -/
inductive Step
  | acquireInstance
  | openPage
  | loadSource
  | applyMediaMode (media : String)
  | awaitSelector (selector : String)
  | awaitXpath (xpath : String)
  | capturePdf (pdf : PdfOpts)
  | releaseInstance
  deriving DecidableEq

/-- Sequencing of pipeline stages: a failed stage short-circuits, keeping
the trace produced so far; a successful stage appends its trace. -/
def stepSeq {α β : Type} (a : Except RenderError α × List Step)
    (f : α → Except RenderError β × List Step) : Except RenderError β × List Step :=
  match a with
  | (.error e, tr) => (.error e, tr)
  | (.ok x, tr) => ((f x).1, tr ++ (f x).2)

/-- `await browser.newPage()`. -/
def openPageStage : Except RenderError Unit × List Step :=
  (Except.ok (), [Step.openPage])

/-- Result of the LoadSource block: for a url job, `page.goto` must
resolve with a response (`null` throws), and a response that is not ok
throws with the status code and the response body (empty when `text()`
threw); for an html job, `page.setContent` loads the markup directly. -/
def loadResult (opts : RenderOptions) (env : PageEnv) : Except RenderError Unit :=
  match opts.src with
  | .url _ =>
    match env.gotoResponse with
    | some r =>
        if r.ok then Except.ok ()
        else Except.error (RenderError.navigationNotOk r.status (r.text.getD ""))
    | none => Except.error RenderError.navigationNullResponse
  | .html _ => Except.ok ()

/-- The LoadSource stage with its trace entry. -/
def loadSourceStage (opts : RenderOptions) (env : PageEnv) :
    Except RenderError Unit × List Step :=
  (loadResult opts env, [Step.loadSource])

/-- Trace of the media-mode block: `page.emulateMediaType` runs only when
`options.mediaType` is set. -/
def optStepMedia (opts : RenderOptions) : List Step :=
  match opts.mediaType with
  | some m => [Step.applyMediaMode m]
  | none => []

/-- The ApplyMediaMode stage (emulation itself cannot fail in the model). -/
def mediaStage (opts : RenderOptions) : Except RenderError Unit × List Step :=
  (Except.ok (), optStepMedia opts)

/-- Trace of the selector wait: `page.waitForSelector` runs only when
`options.waitForSelector` is set. -/
def optStepSelector (opts : RenderOptions) : List Step :=
  match opts.waitForSelector with
  | some sel => [Step.awaitSelector sel]
  | none => []

/-- Result of the selector wait: non-appearance rejects. -/
def selectorResult (opts : RenderOptions) (env : PageEnv) : Except RenderError Unit :=
  match opts.waitForSelector with
  | some sel =>
      if env.selectorFound then Except.ok ()
      else Except.error (RenderError.selectorTimeout sel)
  | none => Except.ok ()

/-- The selector wait stage. -/
def selectorStage (opts : RenderOptions) (env : PageEnv) :
    Except RenderError Unit × List Step :=
  (selectorResult opts env, optStepSelector opts)

/-- Trace of the xpath wait: `page.waitForXPath` runs only when
`options.waitForXpath` is set. -/
def optStepXpath (opts : RenderOptions) : List Step :=
  match opts.waitForXpath with
  | some x => [Step.awaitXpath x]
  | none => []

/-- Result of the xpath wait: non-appearance rejects. -/
def xpathResult (opts : RenderOptions) (env : PageEnv) : Except RenderError Unit :=
  match opts.waitForXpath with
  | some x =>
      if env.xpathFound then Except.ok ()
      else Except.error (RenderError.xpathTimeout x)
  | none => Except.ok ()

/-- The xpath wait stage. -/
def xpathStage (opts : RenderOptions) (env : PageEnv) :
    Except RenderError Unit × List Step :=
  (xpathResult opts env, optStepXpath opts)

/-- Result of `page.pdf`: a null or undefined pdf throws. -/
def captureResult (env : PageEnv) : Except RenderError (List Nat) :=
  match env.pdfResult with
  | some b => Except.ok b
  | none => Except.error RenderError.pdfNull

/-- The CapturePdf stage, recording the pdf options actually passed to
`page.pdf`. -/
def captureStage (p : PdfOpts) (env : PageEnv) :
    Except RenderError (List Nat) × List Step :=
  (captureResult env, [Step.capturePdf p])

/-- The `render` function of src/src/lib/pdf.ts: open a page, load the
source, run the size-defaulting block, emulate the media type, run the
selector and xpath waits, and capture the pdf.  (The defaulting block sits
between LoadSource and the media emulation in the source; it is a pure
option rewrite here and contributes no step of its own.) -/
def renderPipeline (opts : RenderOptions) (env : PageEnv) :
    Except RenderError (List Nat) × List Step :=
  stepSeq openPageStage fun _ =>
  stepSeq (loadSourceStage opts env) fun _ =>
  stepSeq (mediaStage opts) fun _ =>
  stepSeq (selectorStage opts env) fun _ =>
  stepSeq (xpathStage opts env) fun _ =>
  captureStage (applyPdfDefaults opts.pdf env.offsetHeight) env

/-- The facade `render` of src/src/lib/pdf.ts wraps the pipeline in
`pool.use`, which acquires an instance before running it and releases the
instance on every exit (modelled from the spec for the generic-pool `use`
combinator, which is not part of src). -/
def renderJob (opts : RenderOptions) (env : PageEnv) :
    Except RenderError (List Nat) × List Step :=
  let (r, tr) := renderPipeline opts env
  (r, Step.acquireInstance :: tr ++ [Step.releaseInstance])

/-- The pipeline order stated by the specification: acquire, open page,
load source, apply media mode, await conditions (selector then xpath),
capture pdf, release, with the optional steps present exactly when the
job configures them. -/
def canonicalTrace (opts : RenderOptions) (env : PageEnv) : List Step :=
  [Step.acquireInstance, Step.openPage, Step.loadSource]
    ++ optStepMedia opts ++ optStepSelector opts ++ optStepXpath opts
    ++ [Step.capturePdf (applyPdfDefaults opts.pdf env.offsetHeight),
        Step.releaseInstance]

/-- Projection of a trace step to the pdf options it carries, when it is
the capture step. -/
def captureProj : Step → Option PdfOpts
  | Step.capturePdf p => some p
  | _ => none

/-- The pdf options the pipeline hands to `page.pdf`, read off the trace. -/
def capturedPdfOpts (opts : RenderOptions) (env : PageEnv) : Option PdfOpts :=
  ((renderJob opts env).2.filterMap captureProj).head?

/-! ### Renderer facade of the revision embedded in src/src/server.ts

That revision carries the total render timeout: `createRenderer.render`
acquires at `LOW_PRIORITY`, races the pipeline against the `timeout`
helper with `options.timeout ? options.timeout : defaultTimeoutMs`
(25000), rethrows failures, and releases the browser in a `finally`
block.  `isHealthy` acquires at `HIGH_PRIORITY` inside a try/catch and
never throws.  Its pool is configured with `acquireTimeoutMillis: 10000`. -/

namespace V1

/-- `const defaultTimeoutMs = 25000`. -/
def defaultTimeoutMs : Nat := 25000

/-- `acquireTimeoutMillis: 10000` from the pool options of this revision. -/
def acquireTimeoutMillis : Nat := 10000

/-- The `RenderOptions` interface of this revision (loose object with
optional `url` and `html` and an optional `timeout`). -/
structure RenderOptionsV1 where
  url : Option String := none
  html : Option String := none
  pdf : PdfRenderer.PdfOpts := {}
  timeout : Option Nat := none
  waitForSelector : Option String := none
  waitForXpath : Option String := none
  navigation : Option PdfRenderer.WaitUntil := none
  mediaType : Option String := none
  deriving DecidableEq

/-- The total render timeout picked by `render`:
`options.timeout ? options.timeout : defaultTimeoutMs`.  JavaScript
truthiness means a timeout of 0 falls back to the default. -/
def totalTimeoutMs (o : RenderOptionsV1) : Nat :=
  match o.timeout with
  | some t => if t ≠ 0 then t else defaultTimeoutMs
  | none => defaultTimeoutMs

/-- Outcome of `pool.acquire`: an instance, an acquisition timeout, or
another pool failure. -/
inductive AcquireResult
  | ok (pid : Nat)
  | timedOut
  | failed
  deriving DecidableEq

/-- Modelled from the spec: the acquisition deadline of the pool.  An
instance becoming available `t` milliseconds after the call (never, for
`none`) is handed out iff `t` is within `acquireTimeoutMillis`; otherwise
`pool.acquire` rejects with a timeout.  The deadline mechanism lives in
the generic-pool dependency; the 10000 ms value is the configuration in
src. -/
def acquireOutcome (availableAfter : Option Nat) (pid : Nat) : AcquireResult :=
  match availableAfter with
  | some t => if t ≤ acquireTimeoutMillis then AcquireResult.ok pid else AcquireResult.timedOut
  | none => AcquireResult.timedOut

/-- How one run of the inner `render` call would go: how long it takes and
what it would produce. -/
structure PipelineRun where
  duration : Nat
  outcome : Except PdfRenderer.RenderError (List Nat)

/-- Result of the facade `render`. -/
inductive FacadeResult
  | ok (buf : List Nat)
  | pipelineError (e : PdfRenderer.RenderError)
  | timedOut
  | acquireFailed
  deriving DecidableEq

/-- Pool operations the facade performs. -/
inductive PoolAction
  | acquire (priority : Int)
  | release (pid : Nat)
  | destroy (pid : Nat)
  deriving DecidableEq

/-- The `timeout` helper raced against the pipeline
(`Promise.race([timeoutPromise, promise])`): the pipeline result stands
when it settles within the bound, otherwise the race rejects with the
timeout error. -/
def timeoutRace (run : PipelineRun) (bound : Nat) : FacadeResult :=
  if run.duration ≤ bound then
    match run.outcome with
    | Except.ok b => FacadeResult.ok b
    | Except.error e => FacadeResult.pipelineError e
  else FacadeResult.timedOut

/-- `createRenderer.render` of this revision: acquire at `LOW_PRIORITY`,
race the pipeline against the total timeout, rethrow any failure, and
release the browser in the `finally` block.  When acquisition itself
fails nothing was borrowed and nothing is released. -/
def renderFacade (acq : AcquireResult) (o : RenderOptionsV1) (run : PipelineRun) :
    FacadeResult × List PoolAction :=
  match acq with
  | AcquireResult.ok pid =>
      (timeoutRace run (totalTimeoutMs o),
       [PoolAction.acquire PdfRenderer.LOW_PRIORITY, PoolAction.release pid])
  | _ => (FacadeResult.acquireFailed, [PoolAction.acquire PdfRenderer.LOW_PRIORITY])

/-- `createRenderer.isHealthy` of this revision: acquire at
`HIGH_PRIORITY`, release immediately, return true; any failure is caught
and turned into false. -/
def isHealthy (acq : AcquireResult) : Bool × List PoolAction :=
  match acq with
  | AcquireResult.ok pid =>
      (true, [PoolAction.acquire PdfRenderer.HIGH_PRIORITY, PoolAction.release pid])
  | _ => (false, [PoolAction.acquire PdfRenderer.HIGH_PRIORITY])

end V1

/-! ### Request translator (src/src/domain/pdf/request.ts) -/

namespace Request

/-- The `waitForNavigation` enum of the body schema. -/
def waitForNavigationEnum : List String :=
  ["load", "domcontentloaded", "networkidle0", "networkidle2"]

/-- The `format` enum of the body schema (including its `Tabload`
misspelling). -/
def formatEnum : List String :=
  ["Letter", "Legal", "Tabload", "Ledger", "A0", "A1", "A2", "A3", "A4", "A5"]

/-- A validated request body: every schema property, with `none` for an
absent key. -/
structure Body where
  url : Option String := none
  html : Option String := none
  waitForNavigation : Option PdfRenderer.WaitUntil := none
  waitForSelector : Option String := none
  waitForXpath : Option String := none
  headerTemplate : Option String := none
  footerTemplate : Option String := none
  format : Option String := none
  mediaType : Option String := none
  margin : Option PdfRenderer.Margins := none
  defaultNavigationTimeout : Option Nat := none
  defaultTimeout : Option Nat := none
  deriving DecidableEq

/-- Schema check of a `waitForNavigation` value against its anyOf: a
string drawn from the enum, or an array of such strings. -/
def wuAdmits : PdfRenderer.WaitUntil → Bool
  | .one s => waitForNavigationEnum.contains s
  | .many l => l.all waitForNavigationEnum.contains

/-- `bodySchema`: the `anyOf` demands a `url` or an `html` key (both at
once are admitted), and the enumerated properties must draw from their
enums.  The remaining properties are type checks that the typed `Body`
already guarantees. -/
def bodySchemaAdmits (b : Body) : Bool :=
  (b.url.isSome || b.html.isSome)
  && (match b.waitForNavigation with
      | none => true
      | some w => wuAdmits w)
  && (match b.format with
      | none => true
      | some f => formatEnum.contains f)
  && (match b.mediaType with
      | none => true
      | some m => m == "screen" || m == "print")

/-- JavaScript truthiness of a `waitForNavigation` value: the empty string
is falsy, any array (even empty) is truthy. -/
def jsTruthyWU : PdfRenderer.WaitUntil → Bool
  | .one s => s != ""
  | .many _ => true

/-- The `shared` object literal of `pdfBodyToRenderOptions`, attached to a
given source variant.  Conditional spreads follow the source: navigation
and the wait wrappers are built only from truthy fields, header and footer
templates switch `displayHeaderFooter`, and the two timeouts default to
60000 through `??`. -/
def translatedShared (b : Body) (src : PdfRenderer.Source) : PdfRenderer.RenderOptions :=
  { src := src
    navigation :=
      match b.waitForNavigation with
      | some w => if jsTruthyWU w then some w else none
      | none => none
    waitForXpath :=
      match b.waitForXpath with
      | some x => if x != "" then some x else none
      | none => none
    waitForSelector :=
      match b.waitForSelector with
      | some s => if s != "" then some s else none
      | none => none
    mediaType := b.mediaType
    pdf :=
      { format := b.format
        displayHeaderFooter := jsTruthyStr b.headerTemplate || jsTruthyStr b.footerTemplate
        headerTemplate := b.headerTemplate
        footerTemplate := b.footerTemplate
        margin := b.margin }
    defaultNavigationTimeout := b.defaultNavigationTimeout.getD 60000
    defaultTimeout := b.defaultTimeout.getD 60000 }

/-- `pdfBodyToRenderOptions`: the ternary on `"url" in body` picks the
url variant whenever the `url` key is present, and falls back to the html
variant otherwise. -/
def pdfBodyToRenderOptions (b : Body) : PdfRenderer.RenderOptions :=
  match b.url with
  | some u => translatedShared b (PdfRenderer.Source.url u)
  | none => translatedShared b (PdfRenderer.Source.html (b.html.getD ""))

end Request

/-! ## Lemmas -/

theorem hmSet_lookup_same (m : HealthMap) (p : Nat) (v : Bool) : hmSet m p v p = some v := by
  simp [hmSet]

theorem hmSet_lookup_other (m : HealthMap) (p q : Nat) (v : Bool) (h : q ≠ p) :
    hmSet m p v q = m q := by
  simp [hmSet, h]

theorem hmDelete_lookup_other (m : HealthMap) (p q : Nat) (h : q ≠ p) :
    hmDelete m p q = m q := by
  simp [hmDelete, h]

theorem applyEvents_cons (m : HealthMap) (e : PoolEvent) (rest : List PoolEvent) :
    applyEvents m (e :: rest) = applyEvents (applyEvent m e) rest := rfl

/-- Once the disconnect listener has set the repair flag of a pid, any
event sequence that neither recreates nor intentionally destroys that pid
leaves the flag set. -/
theorem applyEvents_preserves_unhealthy (evs : List PoolEvent) (m : HealthMap) (pid : Nat)
    (hm : m pid = some true)
    (hevs : ∀ e ∈ evs, e ≠ PoolEvent.create pid ∧ e ≠ PoolEvent.destroy pid) :
    applyEvents m evs pid = some true := by
  induction evs generalizing m with
  | nil => exact hm
  | cons e rest ih =>
    rw [applyEvents_cons]
    refine ih (applyEvent m e) ?_ (fun x hx => hevs x (List.mem_cons_of_mem _ hx))
    have he := hevs e (List.mem_cons_self _ _)
    cases e with
    | create q =>
        have hq : pid ≠ q := by
          intro hqe; exact he.1 (by rw [hqe])
        rw [applyEvent, hmSet_lookup_other _ _ _ _ hq]; exact hm
    | disconnected q =>
        by_cases hq : pid = q
        · subst hq; rw [applyEvent, hmSet_lookup_same]
        · rw [applyEvent, hmSet_lookup_other _ _ _ _ hq]; exact hm
    | destroy q =>
        have hq : pid ≠ q := by
          intro hqe; exact he.2 (by rw [hqe])
        rw [applyEvent, hmDelete_lookup_other _ _ _ hq]; exact hm

theorem factoryValidate_eq_of_lookup (m m2 : HealthMap) (pid : Nat) (h : m pid = m2 pid) :
    factoryValidate m pid = factoryValidate m2 pid := by
  unfold factoryValidate; rw [h]

/-- A dispensed instance came from the idle list. -/
theorem dispense_mem (idle : List Nat) :
    ∀ (h : HealthMap) (p : Nat) (h2 : HealthMap) (i2 : List Nat),
      dispense h idle = (some p, h2, i2) → p ∈ idle := by
  induction idle with
  | nil => intro h p h2 i2 hd; simp [dispense] at hd
  | cons q rest ih =>
    intro h p h2 i2 hd
    simp only [dispense] at hd
    split at hd
    · obtain ⟨h1, -, -⟩ := Prod.mk.injEq .. ▸ hd
      cases hd
      exact List.mem_cons_self _ _
    · exact List.mem_cons_of_mem _ (ih _ _ _ _ hd)

/-- The idle list left behind by a dispense is drawn from the original
idle list. -/
theorem dispense_subset (idle : List Nat) :
    ∀ (h : HealthMap) (r : Option Nat) (h2 : HealthMap) (i2 : List Nat),
      dispense h idle = (r, h2, i2) → i2 ⊆ idle := by
  induction idle with
  | nil =>
    intro h r h2 i2 hd
    simp only [dispense] at hd
    cases hd
    exact List.Subset.refl _
  | cons q rest ih =>
    intro h r h2 i2 hd
    simp only [dispense] at hd
    split at hd
    · cases hd
      exact List.subset_cons_self _ _
    · exact (ih _ _ _ _ hd).trans (List.subset_cons_self _ _)

/-- An instance whose validate is false is never the one dispensed, as
long as the idle list has no duplicate pids. -/
theorem dispense_ne (idle : List Nat) :
    ∀ (h : HealthMap) (pid : Nat), idle.Nodup →
      factoryValidate h pid = false →
      ∀ (p : Nat) (h2 : HealthMap) (i2 : List Nat),
        dispense h idle = (some p, h2, i2) → p ≠ pid := by
  induction idle with
  | nil => intro h pid _ _ p h2 i2 hd; simp [dispense] at hd
  | cons q rest ih =>
    intro h pid hnd hv p h2 i2 hd
    simp only [dispense] at hd
    split at hd
    · rename_i hq
      cases hd
      intro hqp
      rw [hqp, hv] at hq
      exact Bool.false_ne_true hq
    · by_cases hqpid : q = pid
      · subst hqpid
        have hmem := dispense_mem rest _ _ _ _ hd
        have hnin : q ∉ rest := (List.nodup_cons.mp hnd).1
        intro hpq; rw [hpq] at hmem; exact hnin hmem
      · refine ih _ pid (List.nodup_cons.mp hnd).2 ?_ _ _ _ hd
        rw [factoryValidate_eq_of_lookup (hmDelete h q) h pid
          (hmDelete_lookup_other _ _ _ (fun hc => hqpid hc.symm))]
        exact hv

theorem freshPids_length (start n : Nat) : (freshPids start n).length = n := by
  simp [freshPids]

theorem not_mem_freshPids (pid start n : Nat) (h : pid < start) :
    pid ∉ freshPids start n := by
  simp only [freshPids, List.mem_map, List.mem_range]
  rintro ⟨i, -, hi⟩
  omega

theorem replenish_borrowed (s : PoolState) : (replenish s).borrowed = s.borrowed := rfl

theorem replenish_idle (s : PoolState) :
    (replenish s).idle = s.idle ++ freshPids s.nextPid (s.minSize - poolSize s) := rfl

theorem replenish_min_le (s : PoolState) : s.minSize ≤ poolSize (replenish s) := by
  simp only [replenish, poolSize, List.length_append, freshPids_length]
  omega

/-! ## Claim theorems -/

/-- C1: after the disconnect listener has flagged an instance (and absent
an intentional destroy or a recreation of its pid), every later validate
of that instance returns false; the pool, which tests on borrow, never
hands the instance out with acquire, destroys it when it reaches it at
the head of the idle queue, and ends up with at least `min` instances. -/
theorem c1_disconnected_instance_quarantined
    (s : PoolState) (pid : Nat) (evs : List PoolEvent)
    (hunh : s.health pid = some true)
    (hfresh : pid < s.nextPid)
    (hnb : pid ∉ s.borrowed)
    (hnd : s.idle.Nodup)
    (hevs : ∀ e ∈ evs, e ≠ PoolEvent.create pid ∧ e ≠ PoolEvent.destroy pid) :
    factoryValidate s.health pid = false
  ∧ factoryValidate (applyEvents s.health evs) pid = false
  ∧ (poolAcquire s).1 ≠ some pid
  ∧ pid ∉ (poolAcquire s).2.borrowed
  ∧ (∀ rest, s.idle = pid :: rest → pid ∉ (poolAcquire s).2.idle)
  ∧ s.minSize ≤ poolSize (poolAcquire s).2 := by
  have hval : factoryValidate s.health pid = false := by
    unfold factoryValidate; rw [hunh]
  have hevents : factoryValidate (applyEvents s.health evs) pid = false := by
    unfold factoryValidate
    rw [applyEvents_preserves_unhealthy evs s.health pid hunh hevs]
  rcases hd : dispense s.health s.idle with ⟨r, h2, i2⟩
  have hsub : i2 ⊆ s.idle := dispense_subset _ _ _ _ _ hd
  have hhead : ∀ rest, s.idle = pid :: rest → (pid ∉ i2 ∧ pid ∉ rest) := by
    intro rest hrest
    rw [hrest] at hd hnd
    have hnin : pid ∉ rest := (List.nodup_cons.mp hnd).1
    simp only [dispense, hval, Bool.false_eq_true, if_false] at hd
    exact ⟨fun hmem => hnin (dispense_subset rest _ _ _ _ hd hmem), hnin⟩
  cases r with
  | some p =>
    have hne : p ≠ pid := dispense_ne s.idle s.health pid hnd hval p h2 i2 hd
    refine ⟨hval, hevents, ?_, ?_, ?_, ?_⟩
    · simp only [poolAcquire, hd]
      intro hc
      exact hne (Option.some.inj hc)
    · simp only [poolAcquire, hd, replenish_borrowed, List.mem_append,
        List.mem_singleton]
      rintro (hc | hc)
      · exact hnb hc
      · exact hne hc.symm
    · intro rest hrest
      simp only [poolAcquire, hd, replenish_idle, List.mem_append]
      rintro (hc | hc)
      · exact (hhead rest hrest).1 hc
      · exact not_mem_freshPids pid _ _ hfresh hc
    · simp only [poolAcquire, hd]
      exact replenish_min_le
        { health := h2, idle := i2, borrowed := s.borrowed ++ [p]
          minSize := s.minSize, nextPid := s.nextPid }
  | none =>
    refine ⟨hval, hevents, ?_, ?_, ?_, ?_⟩
    · simp only [poolAcquire, hd]
      intro hc
      exact absurd (Option.some.inj hc).symm (Nat.ne_of_lt hfresh)
    · simp only [poolAcquire, hd, replenish_borrowed, List.mem_append,
        List.mem_singleton]
      rintro (hc | hc)
      · exact hnb hc
      · exact Nat.ne_of_lt hfresh hc
    · intro rest hrest
      simp only [poolAcquire, hd, replenish_idle, List.mem_append]
      rintro (hc | hc)
      · exact (hhead rest hrest).1 hc
      · exact not_mem_freshPids pid _ _ (Nat.lt_succ_of_lt hfresh) hc
    · simp only [poolAcquire, hd]
      exact replenish_min_le
        { health := hmSet h2 s.nextPid false, idle := i2
          borrowed := s.borrowed ++ [s.nextPid]
          minSize := s.minSize, nextPid := s.nextPid + 1 }

/-- Witness for C1 at a concrete pool: one instance with pid 0, created
and then disconnected, alone in the idle queue of a pool with min 1. -/
theorem c1_witness :
    factoryValidate
      (applyEvents (fun _ => none) [PoolEvent.create 0, PoolEvent.disconnected 0]) 0 = false
  ∧ (poolAcquire
      { health := applyEvents (fun _ => none) [PoolEvent.create 0, PoolEvent.disconnected 0]
        idle := [0], borrowed := [], minSize := 1, nextPid := 1 }).1 ≠ some 0
  ∧ 0 ∉ (poolAcquire
      { health := applyEvents (fun _ => none) [PoolEvent.create 0, PoolEvent.disconnected 0]
        idle := [0], borrowed := [], minSize := 1, nextPid := 1 }).2.idle
  ∧ 1 ≤ poolSize (poolAcquire
      { health := applyEvents (fun _ => none) [PoolEvent.create 0, PoolEvent.disconnected 0]
        idle := [0], borrowed := [], minSize := 1, nextPid := 1 }).2 := by
  have h := c1_disconnected_instance_quarantined
    { health := applyEvents (fun _ => none) [PoolEvent.create 0, PoolEvent.disconnected 0]
      idle := [0], borrowed := [], minSize := 1, nextPid := 1 }
    0 [] (by rfl) (by decide) (by simp) (by simp) (by simp)
  exact ⟨h.1, h.2.2.1, h.2.2.2.2.1 [] rfl, h.2.2.2.2.2⟩

/-- C2: evidence against the claimed priority servicing.  With the
configured waiting queue (`priorityRange` is not set by the sources, so it
defaults to 1), a render waiter enqueued at `LOW_PRIORITY = 0` before a
health-probe waiter enqueued at `HIGH_PRIORITY = 1` is dequeued first when
an instance frees up: the out-of-range priority 1 is clamped into the
single slot and the queue is FIFO.  Even with a `priorityRange` of 2 the
render waiter is still served first, because the queue serves slot 0 (the
numerically lowest priority) first.  Waiter 100 is the render acquire,
waiter 200 the health-probe acquire. -/
theorem c2_render_waiter_served_before_health_waiter :
    (pqDequeue (pqEnqueue (pqEnqueue (mkPQ 1) 100 LOW_PRIORITY) 200 HIGH_PRIORITY)).1
      = some 100
  ∧ (pqDequeue (pqEnqueue (pqEnqueue (mkPQ 2) 100 LOW_PRIORITY) 200 HIGH_PRIORITY)).1
      = some 100 := by
  constructor <;> rfl

/-- C3 counterexample: a job that gives a total timeout of 0 does not get
a total render timeout equal to its own value; the truthiness test in
`options.timeout ? options.timeout : defaultTimeoutMs` silently replaces
it by the 25 second default. -/
theorem c3_counterexample :
    V1.totalTimeoutMs { timeout := some 0 } = 25000
  ∧ V1.totalTimeoutMs { timeout := some 0 } ≠ 0 := by
  constructor <;> decide

/-- C3 (amended): the pipeline is bounded by the job timeout when given
and nonzero, and by 25 seconds when the job gives none (or gives 0); when
the bound elapses before the pipeline completes, render fails with the
timeout error and the borrowed instance is released back to the pool, not
destroyed. -/
theorem c3_total_timeout_amended
    (o : V1.RenderOptionsV1) (run : V1.PipelineRun) (pid : Nat)
    (hlate : V1.totalTimeoutMs o < run.duration) :
    (V1.renderFacade (V1.AcquireResult.ok pid) o run).1 = V1.FacadeResult.timedOut
  ∧ (V1.renderFacade (V1.AcquireResult.ok pid) o run).2
      = [V1.PoolAction.acquire LOW_PRIORITY, V1.PoolAction.release pid]
  ∧ (∀ a, V1.PoolAction.destroy a ∉ (V1.renderFacade (V1.AcquireResult.ok pid) o run).2)
  ∧ (∀ t, o.timeout = some t → t ≠ 0 → V1.totalTimeoutMs o = t)
  ∧ (o.timeout = none → V1.totalTimeoutMs o = V1.defaultTimeoutMs)
  ∧ (o.timeout = some 0 → V1.totalTimeoutMs o = V1.defaultTimeoutMs) := by
  refine ⟨?_, rfl, ?_, ?_, ?_, ?_⟩
  · simp only [V1.renderFacade, V1.timeoutRace]
    rw [if_neg (by omega)]
  · intro a
    simp [V1.renderFacade]
  · intro t ht hnz
    simp [V1.totalTimeoutMs, ht, hnz]
  · intro ht
    simp [V1.totalTimeoutMs, ht]
  · intro ht
    simp [V1.totalTimeoutMs, ht]

/-- Witness for C3 (amended): a job with no timeout whose pipeline takes
30 seconds times out at the 25 second default and still releases. -/
theorem c3_witness :
    (V1.renderFacade (V1.AcquireResult.ok 7) { timeout := none }
        { duration := 30000, outcome := Except.ok [1] }).1 = V1.FacadeResult.timedOut
  ∧ (V1.renderFacade (V1.AcquireResult.ok 7) { timeout := none }
        { duration := 30000, outcome := Except.ok [1] }).2
      = [V1.PoolAction.acquire LOW_PRIORITY, V1.PoolAction.release 7]
  ∧ V1.totalTimeoutMs ({ timeout := none } : V1.RenderOptionsV1) = V1.defaultTimeoutMs := by
  have h := c3_total_timeout_amended { timeout := none }
    { duration := 30000, outcome := Except.ok [1] } 7 (by decide)
  exact ⟨h.1, h.2.1, h.2.2.2.2.1 rfl⟩

/-- A step found in the trace of a sequenced stage pair came from one of
the two stages. -/
theorem stepSeq_mem {α β : Type} (a : Except RenderError α × List Step)
    (f : α → Except RenderError β × List Step) (st : Step)
    (h : st ∈ (stepSeq a f).2) : st ∈ a.2 ∨ ∃ x, st ∈ (f x).2 := by
  rcases a with ⟨r, tr⟩
  cases r with
  | error e => exact Or.inl h
  | ok x =>
    simp only [stepSeq] at h
    rcases List.mem_append.mp h with h | h
    · exact Or.inl h
    · exact Or.inr ⟨x, h⟩

/-- The pipeline of the latest revision never performs the release step
itself; releasing is the business of the facade wrapper. -/
theorem renderPipeline_no_release (opts : RenderOptions) (env : PageEnv) :
    ∀ st ∈ (renderPipeline opts env).2, st ≠ Step.releaseInstance := by
  intro st hst
  unfold renderPipeline at hst
  rcases stepSeq_mem _ _ _ hst with h | ⟨_, h⟩
  · simp only [openPageStage, List.mem_singleton] at h
    simp [h]
  rcases stepSeq_mem _ _ _ h with h2 | ⟨_, h2⟩
  · simp only [loadSourceStage, List.mem_singleton] at h2
    simp [h2]
  rcases stepSeq_mem _ _ _ h2 with h3 | ⟨_, h3⟩
  · rcases hm : opts.mediaType with _ | m
    · simp [mediaStage, optStepMedia, hm] at h3
    · simp only [mediaStage, optStepMedia, hm, List.mem_singleton] at h3
      simp [h3]
  rcases stepSeq_mem _ _ _ h3 with h4 | ⟨_, h4⟩
  · rcases hs : opts.waitForSelector with _ | sel
    · simp [selectorStage, optStepSelector, hs] at h4
    · simp only [selectorStage, optStepSelector, hs, List.mem_singleton] at h4
      simp [h4]
  rcases stepSeq_mem _ _ _ h4 with h5 | ⟨_, h5⟩
  · rcases hx : opts.waitForXpath with _ | x
    · simp [xpathStage, optStepXpath, hx] at h5
    · simp only [xpathStage, optStepXpath, hx, List.mem_singleton] at h5
      simp [h5]
  · simp only [captureStage, List.mem_singleton] at h5
    simp [h5]

/-- The facade trace is the pipeline trace bracketed by one acquire and
one release. -/
theorem renderJob_trace (opts : RenderOptions) (env : PageEnv) :
    (renderJob opts env).2
      = Step.acquireInstance :: (renderPipeline opts env).2 ++ [Step.releaseInstance] := by
  unfold renderJob
  rcases hp : renderPipeline opts env with ⟨r, tr⟩
  simp

/-- The facade returns the pipeline result unchanged. -/
theorem renderJob_result (opts : RenderOptions) (env : PageEnv) :
    (renderJob opts env).1 = (renderPipeline opts env).1 := by
  unfold renderJob
  rcases hp : renderPipeline opts env with ⟨r, tr⟩
  simp

/-- C4: whenever an instance was actually borrowed, the facade releases it
exactly once, on every exit path: the action list of the older facade is
exactly acquire-then-release for every pipeline outcome (success, failure
or timeout), and the pipeline trace of the latest facade contains exactly
one release step for every job and environment. -/
theorem c4_release_exactly_once
    (acq : V1.AcquireResult) (o : V1.RenderOptionsV1) (run : V1.PipelineRun) (pid : Nat)
    (hacq : acq = V1.AcquireResult.ok pid)
    (opts : RenderOptions) (env : PageEnv) :
    (V1.renderFacade acq o run).2
      = [V1.PoolAction.acquire LOW_PRIORITY, V1.PoolAction.release pid]
  ∧ ((V1.renderFacade acq o run).2.count (V1.PoolAction.release pid)) = 1
  ∧ ((renderJob opts env).2.count Step.releaseInstance) = 1 := by
  subst hacq
  refine ⟨rfl, by simp [V1.renderFacade], ?_⟩
  have h0 : (renderPipeline opts env).2.count Step.releaseInstance = 0 :=
    List.count_eq_zero.mpr (fun hmem => (renderPipeline_no_release opts env _ hmem) rfl)
  rw [renderJob_trace]
  simp [List.count_cons, List.count_append, h0]

/-- Witness for C4 at a concrete borrowed instance, job and environment. -/
theorem c4_witness :
    (V1.renderFacade (V1.AcquireResult.ok 3) { timeout := some 5 }
        { duration := 9000, outcome := Except.error RenderError.pdfNull }).2
      = [V1.PoolAction.acquire LOW_PRIORITY, V1.PoolAction.release 3]
  ∧ ((renderJob { src := Source.html "<p>x</p>", pdf := {} }
        { pdfResult := some [1] }).2.count Step.releaseInstance) = 1 := by
  have h := c4_release_exactly_once (V1.AcquireResult.ok 3) { timeout := some 5 }
    { duration := 9000, outcome := Except.error RenderError.pdfNull } 3 rfl
    { src := Source.html "<p>x</p>", pdf := {} } { pdfResult := some [1] }
  exact ⟨h.1, h.2.2⟩

/-- C5: the health probe of the facade returns true exactly when the pool
hands out an instance within the acquisition deadline; on an acquisition
timeout (or any other acquire failure) it returns false instead of
throwing, and when it does acquire it releases the instance again. -/
theorem c5_isHealthy_iff_acquirable (availableAfter : Option Nat) (pid : Nat) :
    ((V1.isHealthy (V1.acquireOutcome availableAfter pid)).1 = true
      ↔ ∃ t, availableAfter = some t ∧ t ≤ V1.acquireTimeoutMillis)
  ∧ (∀ q, V1.acquireOutcome availableAfter pid = V1.AcquireResult.ok q →
      (V1.isHealthy (V1.acquireOutcome availableAfter pid)).2
        = [V1.PoolAction.acquire HIGH_PRIORITY, V1.PoolAction.release q])
  ∧ ((V1.isHealthy V1.AcquireResult.timedOut).1 = false) := by
  refine ⟨?_, ?_, rfl⟩
  · cases availableAfter with
    | none => simp [V1.acquireOutcome, V1.isHealthy]
    | some t =>
      by_cases ht : t ≤ V1.acquireTimeoutMillis
      · simp [V1.acquireOutcome, V1.isHealthy, ht]
      · simp [V1.acquireOutcome, V1.isHealthy, ht]
  · intro q hq
    rw [hq]
    rfl

/-- Witness for C5: an instance available after 5 ms is inside the
10000 ms deadline, so the probe reports healthy and releases it. -/
theorem c5_witness :
    (V1.isHealthy (V1.acquireOutcome (some 5) 3)).1 = true
  ∧ (V1.isHealthy (V1.acquireOutcome (some 5) 3)).2
      = [V1.PoolAction.acquire HIGH_PRIORITY, V1.PoolAction.release 3] := by
  exact ⟨(c5_isHealthy_iff_acquirable (some 5) 3).1.mpr ⟨5, rfl, by decide⟩,
    (c5_isHealthy_iff_acquirable (some 5) 3).2.1 3 rfl⟩

/-- A failed LoadSource short-circuits the pipeline with its error. -/
theorem renderPipeline_load_error (opts : RenderOptions) (env : PageEnv)
    (e : RenderError) (hL : loadResult opts env = Except.error e) :
    (renderPipeline opts env).1 = Except.error e := by
  unfold renderPipeline
  simp [stepSeq, openPageStage, loadSourceStage, hL]

/-- A failed selector wait short-circuits the pipeline with its error. -/
theorem renderPipeline_selector_error (opts : RenderOptions) (env : PageEnv)
    (e : RenderError)
    (hL : loadResult opts env = Except.ok ())
    (hS : selectorResult opts env = Except.error e) :
    (renderPipeline opts env).1 = Except.error e := by
  unfold renderPipeline
  simp [stepSeq, openPageStage, loadSourceStage, mediaStage, selectorStage, hL, hS]

/-- A failed xpath wait short-circuits the pipeline with its error. -/
theorem renderPipeline_xpath_error (opts : RenderOptions) (env : PageEnv)
    (e : RenderError)
    (hL : loadResult opts env = Except.ok ())
    (hS : selectorResult opts env = Except.ok ())
    (hX : xpathResult opts env = Except.error e) :
    (renderPipeline opts env).1 = Except.error e := by
  unfold renderPipeline
  simp [stepSeq, openPageStage, loadSourceStage, mediaStage, selectorStage, xpathStage,
    hL, hS, hX]

/-- When every wait succeeds, the pipeline runs to the capture and its
trace is the full step sequence. -/
theorem renderPipeline_eval_ok (opts : RenderOptions) (env : PageEnv)
    (hL : loadResult opts env = Except.ok ())
    (hS : selectorResult opts env = Except.ok ())
    (hX : xpathResult opts env = Except.ok ()) :
    renderPipeline opts env
      = (captureResult env,
         [Step.openPage, Step.loadSource]
           ++ optStepMedia opts ++ optStepSelector opts ++ optStepXpath opts
           ++ [Step.capturePdf (applyPdfDefaults opts.pdf env.offsetHeight)]) := by
  unfold renderPipeline
  simp [stepSeq, openPageStage, loadSourceStage, mediaStage, selectorStage, xpathStage,
    captureStage, hL, hS, hX, List.append_assoc]

/-- C6: for a url job the load step requires a navigation response: a
response outside the 2xx range fails the render with the navigation
failure carrying the status code and the response body (empty when the
body could not be read), and a null response fails it with the navigation
failure carrying no status. -/
theorem c6_navigation_response_required (opts : RenderOptions) (env : PageEnv)
    (u : String) (hsrc : opts.src = Source.url u) :
    (∀ r, env.gotoResponse = some r → r.ok = false →
        (renderJob opts env).1
          = Except.error (RenderError.navigationNotOk r.status (r.text.getD "")))
  ∧ (env.gotoResponse = none →
        (renderJob opts env).1 = Except.error RenderError.navigationNullResponse) := by
  constructor
  · intro r hr hok
    rw [renderJob_result]
    apply renderPipeline_load_error
    simp [loadResult, hsrc, hr, hok]
  · intro hr
    rw [renderJob_result]
    apply renderPipeline_load_error
    simp [loadResult, hsrc, hr]

/-- Witness for C6: the specification example of a server answering 404
with body `not found`. -/
theorem c6_witness :
    (renderJob { src := Source.url "http://example.test", pdf := {} }
        { gotoResponse := some { status := 404, text := some "not found" } }).1
      = Except.error (RenderError.navigationNotOk 404 "not found") :=
  (c6_navigation_response_required
      { src := Source.url "http://example.test", pdf := {} }
      { gotoResponse := some { status := 404, text := some "not found" } }
      "http://example.test" rfl).1
    { status := 404, text := some "not found" } rfl (by decide)

/-- Closing bracket of the order argument: the release step alone embeds
into any canonical tail that still has steps to skip before the final
capture and release. -/
theorem release_sublist_tail (m s x : List Step) (p : PdfOpts) :
    List.Sublist [Step.releaseInstance]
      (m ++ (s ++ (x ++ [Step.capturePdf p, Step.releaseInstance]))) := by
  have h0 : List.Sublist [Step.releaseInstance] [Step.capturePdf p, Step.releaseInstance] :=
    List.Sublist.cons _ (List.Sublist.refl _)
  exact ((h0.trans (List.sublist_append_right x _)).trans
    (List.sublist_append_right s _)).trans (List.sublist_append_right m _)

/-- C8: every render performs its steps in the canonical specification
order (its trace is an order-preserving selection from the canonical
sequence, so no step ever repeats and the media emulation precedes the
wait conditions), and a successful render performs exactly the canonical
sequence: acquire, open page, load source, apply media mode, await
selector then xpath, capture, release. -/
theorem c8_pipeline_order (opts : RenderOptions) (env : PageEnv) :
    List.Sublist (renderJob opts env).2 (canonicalTrace opts env)
  ∧ (∀ b, (renderJob opts env).1 = Except.ok b →
      (renderJob opts env).2 = canonicalTrace opts env) := by
  cases hL : loadResult opts env with
  | error e =>
    have htr : (renderPipeline opts env).2 = [Step.openPage, Step.loadSource] := by
      unfold renderPipeline
      simp [stepSeq, openPageStage, loadSourceStage, hL]
    constructor
    · rw [renderJob_trace, htr]
      show List.Sublist
        ([Step.acquireInstance, Step.openPage, Step.loadSource] ++ [Step.releaseInstance])
        (canonicalTrace opts env)
      simp only [canonicalTrace, List.append_assoc]
      exact (release_sublist_tail _ _ _ _).append_left _
    · intro b hb
      rw [renderJob_result, renderPipeline_load_error opts env e hL] at hb
      cases hb
  | ok xL =>
  cases xL
  cases hS : selectorResult opts env with
  | error e =>
    have htr : (renderPipeline opts env).2
        = [Step.openPage, Step.loadSource] ++ optStepMedia opts ++ optStepSelector opts := by
      unfold renderPipeline
      simp [stepSeq, openPageStage, loadSourceStage, mediaStage, selectorStage, hL, hS,
        List.append_assoc]
    constructor
    · rw [renderJob_trace, htr]
      show List.Sublist
        (([Step.acquireInstance, Step.openPage, Step.loadSource]
          ++ (optStepMedia opts ++ optStepSelector opts)) ++ [Step.releaseInstance])
        (canonicalTrace opts env)
      simp only [canonicalTrace, List.append_assoc]
      refine List.Sublist.append_left ?_ _
      refine List.Sublist.append_left ?_ _
      refine List.Sublist.append_left ?_ _
      have h0 : List.Sublist [Step.releaseInstance]
          [Step.capturePdf (applyPdfDefaults opts.pdf env.offsetHeight),
              Step.releaseInstance] :=
        List.Sublist.cons _ (List.Sublist.refl _)
      exact h0.trans (List.sublist_append_right _ _)
    · intro b hb
      rw [renderJob_result, renderPipeline_selector_error opts env e hL hS] at hb
      cases hb
  | ok xS =>
  cases xS
  cases hX : xpathResult opts env with
  | error e =>
    have htr : (renderPipeline opts env).2
        = [Step.openPage, Step.loadSource] ++ optStepMedia opts ++ optStepSelector opts
            ++ optStepXpath opts := by
      unfold renderPipeline
      simp [stepSeq, openPageStage, loadSourceStage, mediaStage, selectorStage, xpathStage,
        hL, hS, hX, List.append_assoc]
    constructor
    · rw [renderJob_trace, htr]
      simp only [canonicalTrace, List.append_assoc, List.cons_append, List.nil_append]
      refine List.Sublist.cons₂ _ (List.Sublist.cons₂ _ (List.Sublist.cons₂ _ ?_))
      refine List.Sublist.append_left ?_ _
      refine List.Sublist.append_left ?_ _
      refine List.Sublist.append_left ?_ _
      exact List.Sublist.cons _ (List.Sublist.refl _)
    · intro b hb
      rw [renderJob_result, renderPipeline_xpath_error opts env e hL hS hX] at hb
      cases hb
  | ok xX =>
  cases xX
  have heval := renderPipeline_eval_ok opts env hL hS hX
  have htr : (renderJob opts env).2 = canonicalTrace opts env := by
    rw [renderJob_trace, heval]
    simp [canonicalTrace, List.append_assoc]
  exact ⟨htr ▸ List.Sublist.refl _, fun b _ => htr⟩

/-- Witness for C8: a markup job with media mode, selector wait, xpath
wait and a fixed paper format runs exactly the canonical sequence. -/
theorem c8_witness :
    (renderJob
        { src := Source.html "<body class=x></body>", pdf := { format := some "A4" }
          waitForSelector := some ".document-ready", waitForXpath := some "//p"
          mediaType := some "print" }
        { pdfResult := some [1, 2] }).2
      = [Step.acquireInstance, Step.openPage, Step.loadSource,
         Step.applyMediaMode "print", Step.awaitSelector ".document-ready",
         Step.awaitXpath "//p", Step.capturePdf { format := some "A4" },
         Step.releaseInstance] := by
  have h := (c8_pipeline_order
      { src := Source.html "<body class=x></body>", pdf := { format := some "A4" }
        waitForSelector := some ".document-ready", waitForXpath := some "//p"
        mediaType := some "print" }
      { pdfResult := some [1, 2] }).2 [1, 2] rfl
  rw [h]
  rfl

/-- A successful render means every stage succeeded. -/
theorem renderPipeline_ok_stages (opts : RenderOptions) (env : PageEnv) (b : List Nat)
    (hok : (renderPipeline opts env).1 = Except.ok b) :
    loadResult opts env = Except.ok () ∧ selectorResult opts env = Except.ok ()
      ∧ xpathResult opts env = Except.ok () ∧ captureResult env = Except.ok b := by
  cases hL : loadResult opts env with
  | error e => rw [renderPipeline_load_error opts env e hL] at hok; cases hok
  | ok xL =>
  cases xL
  cases hS : selectorResult opts env with
  | error e => rw [renderPipeline_selector_error opts env e hL hS] at hok; cases hok
  | ok xS =>
  cases xS
  cases hX : xpathResult opts env with
  | error e => rw [renderPipeline_xpath_error opts env e hL hS hX] at hok; cases hok
  | ok xX =>
  cases xX
  have heval := renderPipeline_eval_ok opts env hL hS hX
  rw [heval] at hok
  exact ⟨rfl, rfl, rfl, hok⟩

/-- On success, the options handed to `page.pdf` are exactly the job's pdf
options after the size-defaulting block. -/
theorem capturedPdfOpts_of_ok (opts : RenderOptions) (env : PageEnv) (b : List Nat)
    (hok : (renderJob opts env).1 = Except.ok b) :
    capturedPdfOpts opts env = some (applyPdfDefaults opts.pdf env.offsetHeight) := by
  rw [renderJob_result] at hok
  obtain ⟨hL, hS, hX, -⟩ := renderPipeline_ok_stages opts env b hok
  have heval := renderPipeline_eval_ok opts env hL hS hX
  have hm : (optStepMedia opts).filterMap captureProj = [] := by
    cases h : opts.mediaType <;> simp [optStepMedia, h, captureProj]
  have hs : (optStepSelector opts).filterMap captureProj = [] := by
    cases h : opts.waitForSelector <;> simp [optStepSelector, h, captureProj]
  have hx : (optStepXpath opts).filterMap captureProj = [] := by
    cases h : opts.waitForXpath <;> simp [optStepXpath, h, captureProj]
  unfold capturedPdfOpts
  rw [renderJob_trace, heval]
  simp [List.filterMap_append, List.filterMap_cons, captureProj, hm, hs, hx]

/-- C9 counterexample: a job with no format, a given width of 5 inches and
no height keeps its width; it is not replaced by the claimed 8.27 inch
default (only the missing height is filled in). -/
theorem c9_counterexample :
    capturedPdfOpts { src := Source.html "<p>x</p>", pdf := { width := some "5in" } }
        { offsetHeight := 100, pdfResult := some [1] }
      = some { width := some "5in", height := some "102 px" }
  ∧ (some "5in" : Option String) ≠ some "8.27in" := by
  constructor
  · rfl
  · decide

/-- C9 (amended): when a job gives neither a format nor a width nor a
height, the pdf options that reach the capture get width 8.27 inches and a
height of the document offsetHeight plus 2 with a space-separated px unit;
a truthy format, or a truthy width together with a truthy height, leaves
the options unchanged; and when only one dimension is missing, only that
dimension is defaulted (a given width is kept). -/
theorem c9_size_defaulting_amended (opts : RenderOptions) (env : PageEnv) (b : List Nat)
    (hok : (renderJob opts env).1 = Except.ok b) :
    (opts.pdf.format = none → opts.pdf.width = none → opts.pdf.height = none →
       capturedPdfOpts opts env
         = some { opts.pdf with
                  width := some "8.27in",
                  height := some (toString (env.offsetHeight + 2) ++ " px") })
  ∧ (∀ f, opts.pdf.format = some f → f ≠ "" → capturedPdfOpts opts env = some opts.pdf)
  ∧ (∀ w h, opts.pdf.width = some w → w ≠ "" → opts.pdf.height = some h → h ≠ "" →
       capturedPdfOpts opts env = some opts.pdf)
  ∧ (∀ w, opts.pdf.format = none → opts.pdf.width = some w → w ≠ "" →
       opts.pdf.height = none →
       capturedPdfOpts opts env
         = some { opts.pdf with
                  height := some (toString (env.offsetHeight + 2) ++ " px") }) := by
  have hc := capturedPdfOpts_of_ok opts env b hok
  refine ⟨?_, ?_, ?_, ?_⟩
  · intro hf hw hh
    rw [hc]
    simp [applyPdfDefaults, jsTruthyStr, hf, hw, hh]
  · intro f hf hfne
    rw [hc]
    simp [applyPdfDefaults, jsTruthyStr, hf, hfne]
  · intro w h hw hwne hh hhne
    rw [hc]
    simp [applyPdfDefaults, jsTruthyStr, hw, hwne, hh, hhne]
  · intro w hf hw hwne hh
    rw [hc]
    simp [applyPdfDefaults, jsTruthyStr, hf, hw, hwne, hh]

/-- Witness for C9 (amended): a job with empty pdf options gets the A4
width and a content-fitted height of offsetHeight 50 plus 2. -/
theorem c9_witness :
    capturedPdfOpts { src := Source.html "<p>x</p>", pdf := {} }
        { offsetHeight := 50, pdfResult := some [2] }
      = some { width := some "8.27in", height := some "52 px" } :=
  (c9_size_defaulting_amended { src := Source.html "<p>x</p>", pdf := {} }
      { offsetHeight := 50, pdfResult := some [2] } [2] rfl).1 rfl rfl rfl

/-- C10: a body carrying both a url and an html field (which the schema's
anyOf admits) is translated to a url-typed job; the html content does not
influence the result at all. -/
theorem c10_url_wins (b : Request.Body) (u : String) (hurl : b.url = some u) :
    (Request.pdfBodyToRenderOptions b).src = Source.url u
  ∧ (∀ s, Request.pdfBodyToRenderOptions { b with html := s }
        = Request.pdfBodyToRenderOptions b)
  ∧ Request.bodySchemaAdmits { url := some u, html := some "ignored" } = true := by
  obtain ⟨bu, bh, bwn, bws, bwx, bht, bft, bfm, bmt, bmg, bnt, bdt⟩ := b
  simp only at hurl
  subst hurl
  exact ⟨rfl, fun s => rfl, rfl⟩

/-- Witness for C10: a concrete body with both url and html fields. -/
theorem c10_witness :
    (Request.pdfBodyToRenderOptions
        { url := some "http://a", html := some "<p>hi</p>" }).src
      = Source.url "http://a"
  ∧ Request.pdfBodyToRenderOptions { url := some "http://a", html := some "<p>other</p>" }
      = Request.pdfBodyToRenderOptions { url := some "http://a", html := some "<p>hi</p>" }
  ∧ Request.bodySchemaAdmits { url := some "http://a", html := some "ignored" } = true := by
  have h := c10_url_wins { url := some "http://a", html := some "<p>hi</p>" } "http://a" rfl
  exact ⟨h.1, h.2.1 (some "<p>other</p>"), h.2.2⟩

end PdfRenderer
